import Mathlib

/-!
Shallow embedding of the wallet-connection core of the repository:
the chain registry (src/Frontend/src/types/chains.ts), the wallet
provider registry (src/Frontend/src/types/wallet-providers.ts and the
four-provider variant in src/unnamed/part_000), the WalletConnect
session-manager module (src/unnamed/part_002, src/unnamed/part_003 and
the variant embedded in src/Frontend/src/layout/Layout.tsx), and the
connection-state controller, i.e. the second `ConnectWalletButton`
component in
src/Frontend/src/components/ConnectWalletButton/ConnectWalletButton.tsx
(lines 561-1222), the variant that integrates WalletConnect.

Browser effects (localStorage, window.ethereum, the WalletConnect SDK)
are modelled by explicit state records and environment records holding
the outcomes of the asynchronous external calls; each source function
becomes a Lean function from state and environment to state (plus, where
a claim needs it, the list of remote calls the function issues).
-/

/-- A JS error value as the code inspects it: `error.code` may be absent
(`undefined`), and a message string. Mirrors the `{code, message}` shape
used throughout the source. -/
structure ErrObj where
  code : Option Int
  message : String
deriving Repr, DecidableEq

/-- The browser localStorage keys this code reads and writes.  A field is
`none` when the key is absent and `some v` when it holds string `v`.
Keys: `walletConnectionActive`, `walletManuallyDisconnected`,
`walletconnect`, `WALLETCONNECT_DEEPLINK_CHOICE`, `wagmi.store`,
`wagmi.wallet`, `wagmi.connected`. -/
structure Storage where
  walletConnectionActive : Option String
  walletManuallyDisconnected : Option String
  walletconnectKey : Option String
  wcDeeplinkChoice : Option String
  wagmiStore : Option String
  wagmiWallet : Option String
  wagmiConnected : Option String
deriving Repr, DecidableEq

/-- The dropdown tab of the widget (`menuTab` state). -/
inductive MenuTab where
  | networks
  | accounts
deriving Repr, DecidableEq

/-- The React state of the WalletConnect-integrating `ConnectWalletButton`
variant (ConnectWalletButton.tsx lines 571-579): `account`, `accounts`,
`currentChain`, `walletProvider`, `menuOpen`, `menuTab`, `isLoading`,
`isDisconnecting`. -/
structure ComponentState where
  account : Option String
  accounts : List String
  currentChain : Option String
  walletProvider : Option String
  menuOpen : Bool
  menuTab : MenuTab
  isLoading : Bool
  isDisconnecting : Bool
deriving Repr, DecidableEq

/-- Initial state of every `useState` hook on mount. -/
def initialComponentState : ComponentState :=
  { account := none
  , accounts := []
  , currentChain := none
  , walletProvider := none
  , menuOpen := false
  , menuTab := .networks
  , isLoading := false
  , isDisconnecting := false }

/-- The WalletConnect `EthereumProvider` singleton's observable data:
its `accounts` array and its numeric `chainId`. -/
structure WCProviderState where
  accounts : List String
  chainId : Option Nat
deriving Repr, DecidableEq

/-- The module-level singleton state of the walletConnectSetup module
(src/unnamed/part_002 lines 8-15): the `provider` singleton, the
`providerInitializing` flag, whether `providerInitPromise` is stored,
and whether the `walletConnectModal` instance exists. -/
structure WCModule where
  provider : Option WCProviderState
  providerInitializing : Bool
  providerInitPromiseStored : Bool
  walletConnectModal : Bool
deriving Repr, DecidableEq

/-- Module state at page load: all singletons null / false. -/
def initialWCModule : WCModule :=
  { provider := none
  , providerInitializing := false
  , providerInitPromiseStored := false
  , walletConnectModal := false }

/-- The whole mutable world a controller operation can touch. -/
structure World where
  comp : ComponentState
  store : Storage
  wc : WCModule
deriving Repr, DecidableEq

/-- `resetProvider` (src/unnamed/part_002 lines 147-165): nulls the
provider singleton, clears the initializing flag and the stored init
promise, removes the `walletManuallyDisconnected` localStorage key, and
closes and nulls the modal if one exists (a `closeModal` error is caught
and only logged). -/
def resetProvider (st : Storage) (m : WCModule) : Storage × WCModule :=
  ( { st with walletManuallyDisconnected := none }
  , { m with provider := none
           , providerInitializing := false
           , providerInitPromiseStored := false
           , walletConnectModal := false } )

/-- External outcomes relevant to `disconnectWalletConnect`: whether the
initial `modal.closeModal()` throws (making the async function reject
before touching the provider), and whether `provider.disconnect()`
resolves (its rejection is caught inside and only logged). -/
structure WCDisconnectEnv where
  closeModalThrows : Bool
  providerDisconnectOk : Bool
deriving Repr, DecidableEq

/-- `disconnectWalletConnect` (src/unnamed/part_002 lines 202-218):
ensures a modal instance exists (`initWalletConnectModal`) and closes it;
if the provider singleton exists, awaits `provider.disconnect()` (errors
caught and logged, no state effect either way) and then calls
`resetProvider`.  Returns the storage, the module, and `true` when the
returned promise resolves (`false` = it rejects, which only happens if
`closeModal` throws before the provider is touched). -/
def disconnectWalletConnect (st : Storage) (m : WCModule)
    (env : WCDisconnectEnv) : Storage × WCModule × Bool :=
  let m1 := { m with walletConnectModal := true }
  if env.closeModalThrows then (st, m1, false)
  else if m1.provider.isSome then
    let r := resetProvider st m1
    (r.1, r.2, true)
  else (st, m1, true)

/-- `resetState` (ConnectWalletButton.tsx lines 965-986): resets all
component state fields to their initial values and removes the
wallet-specific localStorage keys (`walletconnect`,
`WALLETCONNECT_DEEPLINK_CHOICE`, `wagmi.*`); `sessionStorage.clear()`
has no counterpart in the modelled keys. -/
def resetState (s : ComponentState) (st : Storage) :
    ComponentState × Storage :=
  ( { s with account := none
           , accounts := []
           , currentChain := none
           , walletProvider := none
           , menuOpen := false
           , menuTab := .networks }
  , { st with walletconnectKey := none
            , wcDeeplinkChoice := none
            , wagmiStore := none
            , wagmiWallet := none
            , wagmiConnected := none } )

/-- `handleDisconnect` (ConnectWalletButton.tsx lines 991-1024).
WalletConnect branch: sets `walletManuallyDisconnected` = "true",
runs `disconnectWalletConnect` (resolution or rejection only logged),
then in the `.finally` handler runs `resetState`, removes
`walletConnectionActive`, runs `resetProvider`, and clears
`isDisconnecting`.  Other branch: runs `resetState`, removes
`walletConnectionActive`, and clears `isDisconnecting`. -/
def handleDisconnect (w : World) (env : WCDisconnectEnv) : World :=
  let s1 := { w.comp with isDisconnecting := true }
  if w.comp.walletProvider = some "walletconnect" then
    let st1 := { w.store with walletManuallyDisconnected := some "true" }
    let d := disconnectWalletConnect st1 w.wc env
    let r := resetState s1 d.1
    let st4 := { r.2 with walletConnectionActive := none }
    let p := resetProvider st4 d.2.1
    { comp := { r.1 with isDisconnecting := false }
    , store := p.1
    , wc := p.2 }
  else
    let r := resetState s1 w.store
    let st3 := { r.2 with walletConnectionActive := none }
    { comp := { r.1 with isDisconnecting := false }
    , store := st3
    , wc := w.wc }

/-- An example storage with both persistence flags absent. -/
def emptyStorage : Storage :=
  { walletConnectionActive := none
  , walletManuallyDisconnected := none
  , walletconnectKey := none
  , wcDeeplinkChoice := none
  , wagmiStore := none
  , wagmiWallet := none
  , wagmiConnected := none }

/-- A world connected through MetaMask with one account. -/
def mmConnectedWorld : World :=
  { comp := { initialComponentState with
                account := some "0xaaa"
              , accounts := ["0xaaa"]
              , currentChain := some "0x1"
              , walletProvider := some "metamask" }
  , store := { emptyStorage with walletConnectionActive := some "true" }
  , wc := initialWCModule }

/-- A world connected through WalletConnect with two accounts. -/
def wcConnectedWorld : World :=
  { comp := { initialComponentState with
                account := some "0xaaa"
              , accounts := ["0xaaa", "0xbbb"]
              , currentChain := some "0x1"
              , walletProvider := some "walletconnect" }
  , store := { emptyStorage with walletConnectionActive := some "true" }
  , wc := { initialWCModule with
              provider := some { accounts := ["0xaaa", "0xbbb"], chainId := some 1 }
            , walletConnectModal := true } }

/-- C1 counterexample: disconnecting a MetaMask connection never writes
`walletManuallyDisconnected` (the flag is only touched on the
walletconnect branch), so it is not "true" afterwards; and even on the
walletconnect branch the trailing `resetProvider` removes it again. -/
theorem C1_counterexample :
    (handleDisconnect mmConnectedWorld
        { closeModalThrows := false, providerDisconnectOk := true }
      ).store.walletManuallyDisconnected ≠ some "true" ∧
    (handleDisconnect wcConnectedWorld
        { closeModalThrows := false, providerDisconnectOk := true }
      ).store.walletManuallyDisconnected ≠ some "true" := by
  decide

/-- C1 (amended): for every provider kind and every outcome of the
remote disconnect call, `handleDisconnect` clears `account`, `accounts`,
`currentChain` and `walletProvider` and removes the persisted
`walletConnectionActive` flag; but `walletManuallyDisconnected` is never
left equal to "true": on the walletconnect branch it is set before the
remote call and removed again by the final `resetProvider`, and on every
other branch it is never written at all. -/
theorem C1_disconnect_clears_state (w : World) (env : WCDisconnectEnv) :
    let r := handleDisconnect w env
    r.comp.account = none ∧
    r.comp.accounts = [] ∧
    r.comp.currentChain = none ∧
    r.comp.walletProvider = none ∧
    r.store.walletConnectionActive = none ∧
    (w.comp.walletProvider = some "walletconnect" →
      r.store.walletManuallyDisconnected = none) ∧
    (w.comp.walletProvider ≠ some "walletconnect" →
      r.store.walletManuallyDisconnected = w.store.walletManuallyDisconnected) := by
  unfold handleDisconnect disconnectWalletConnect resetState resetProvider
  by_cases h : w.comp.walletProvider = some "walletconnect" <;>
    simp [h]

/-- C9: `resetProvider` always removes the persisted
`walletManuallyDisconnected` flag along with discarding the provider and
modal singletons; consequently a walletconnect `handleDisconnect`, which
sets the flag and then invokes `resetProvider` in its `.finally`
handler, ends with the flag absent, for both outcomes of the remote
disconnect. -/
theorem C9_resetProvider_clears_manual_flag
    (st : Storage) (m : WCModule) (w : World) (env : WCDisconnectEnv) :
    (resetProvider st m).1.walletManuallyDisconnected = none ∧
    (resetProvider st m).2.provider = none ∧
    (resetProvider st m).2.walletConnectModal = false ∧
    (w.comp.walletProvider = some "walletconnect" →
      (handleDisconnect w env).store.walletManuallyDisconnected = none) := by
  refine ⟨rfl, rfl, rfl, fun h => ?_⟩
  unfold handleDisconnect disconnectWalletConnect resetState resetProvider
  simp [h]

/-- A chain descriptor from the chain registry
(src/Frontend/src/types/chains.ts). -/
structure Chain where
  id : String
  name : String
  rpcUrl : String
  currency : String
  blockExplorer : String
deriving Repr, DecidableEq

/-- The chain registry `chains` (src/Frontend/src/types/chains.ts lines
11-44), icon URLs omitted. -/
def chains : List Chain :=
  [ { id := "0x1", name := "Ethereum"
    , rpcUrl := "https://mainnet.infura.io/v3/9aa3d95b3bc440fa88ea12eaa4456161"
    , currency := "ETH", blockExplorer := "https://etherscan.io" }
  , { id := "0x89", name := "Polygon"
    , rpcUrl := "https://polygon-rpc.com"
    , currency := "MATIC", blockExplorer := "https://polygonscan.com" }
  , { id := "0xa", name := "Optimism"
    , rpcUrl := "https://mainnet.optimism.io"
    , currency := "ETH", blockExplorer := "https://optimistic.etherscan.io" }
  , { id := "0xa4b1", name := "Arbitrum"
    , rpcUrl := "https://arb1.arbitrum.io/rpc"
    , currency := "ETH", blockExplorer := "https://arbiscan.io" } ]

/-- The provider ids of the four-provider registry variant
(src/unnamed/part_000), the variant consistent with the component's
walletconnect special case. -/
def walletProviderIds : List String :=
  ["metamask", "coinbase", "brave", "walletconnect"]

/-- Decidable equality for `Except`, used to keep every environment
record decidable so concrete runs can be settled by `decide`. -/
instance {ε α : Type} [DecidableEq ε] [DecidableEq α] :
    DecidableEq (Except ε α) := fun x y =>
  match x, y with
  | .ok a, .ok b =>
      match decEq a b with
      | isTrue h => isTrue (h ▸ rfl)
      | isFalse h => isFalse (fun hh => h (Except.ok.inj hh))
  | .error a, .error b =>
      match decEq a b with
      | isTrue h => isTrue (h ▸ rfl)
      | isFalse h => isFalse (fun hh => h (Except.error.inj hh))
  | .ok _, .error _ => isFalse (fun hh => Except.noConfusion hh)
  | .error _, .ok _ => isFalse (fun hh => Except.noConfusion hh)

/-- The observable behavior of the injected `window.ethereum` object
during one operation: the vendor flags and the outcomes of the request
methods the code calls. -/
structure EthEnv where
  isMetaMask : Bool
  isCoinbaseWallet : Bool
  isBraveWallet : Bool
  requestPermissionsResult : Except ErrObj Unit
  requestAccountsResult : Except ErrObj (List String)
  ethAccountsResult : Except ErrObj (List String)
  ethChainIdResult : Except ErrObj String
deriving Repr, DecidableEq

/-- Result of a provider's `requestConnection`: the promise either
rejects with an error, or resolves with `null` (`none`) or with an
account list. -/
abbrev ConnResult := Except ErrObj (Option (List String))

/-- `walletProviders[metamask].requestConnection`
(src/Frontend/src/types/wallet-providers.ts lines 22-35): resolves
`null` when `window.ethereum?.isMetaMask` is falsy; the awaited
`wallet_requestPermissions` call sits inside the try, so its rejection
is caught and resolves `null`; but the final
`return window.ethereum.request({method: eth_requestAccounts})` returns
the promise without awaiting it, so a rejection of that promise is NOT
intercepted by the catch and propagates to the caller. -/
def requestConnectionMetamask (eth : Option EthEnv) : ConnResult :=
  match eth with
  | none => .ok none
  | some e =>
    if !e.isMetaMask then .ok none
    else
      match e.requestPermissionsResult with
      | .error _ => .ok none
      | .ok _ => e.requestAccountsResult.map some

/-- `walletProviders[coinbase].requestConnection`
(src/Frontend/src/types/wallet-providers.ts lines 43-51): resolves
`null` when the coinbase flag is falsy; otherwise returns the
`eth_requestAccounts` promise without awaiting it, so its rejection
propagates past the catch. -/
def requestConnectionCoinbase (eth : Option EthEnv) : ConnResult :=
  match eth with
  | none => .ok none
  | some e =>
    if !e.isCoinbaseWallet then .ok none
    else e.requestAccountsResult.map some

/-- `walletProviders[brave].requestConnection`
(src/Frontend/src/types/wallet-providers.ts lines 59-67): same shape as
the coinbase descriptor with the brave flag. -/
def requestConnectionBrave (eth : Option EthEnv) : ConnResult :=
  match eth with
  | none => .ok none
  | some e =>
    if !e.isBraveWallet then .ok none
    else e.requestAccountsResult.map some

/-- Dispatch `requestConnection` by provider id (extension providers
only; the component never invokes the registry's walletconnect routine,
see `connectWallet`).  Unknown ids resolve `null`. -/
def requestConnectionFor (pid : String) (eth : Option EthEnv) : ConnResult :=
  if pid = "metamask" then requestConnectionMetamask eth
  else if pid = "coinbase" then requestConnectionCoinbase eth
  else if pid = "brave" then requestConnectionBrave eth
  else .ok none

/-- `detectInstalled` per descriptor: the vendor flag on
`window.ethereum` (wallet-providers.ts lines 21, 42, 58); the
walletconnect descriptor always reports installed (part_000 line 76). -/
def detectInstalledFor (pid : String) (eth : Option EthEnv) : Bool :=
  match eth with
  | none => pid = "walletconnect"
  | some e =>
    if pid = "metamask" then e.isMetaMask
    else if pid = "coinbase" then e.isCoinbaseWallet
    else if pid = "brave" then e.isBraveWallet
    else pid = "walletconnect"

/-- An `EthEnv` where MetaMask is present, the permissions prompt is
approved, and the user rejects the `eth_requestAccounts` prompt with
the standard code-4001 error. -/
def cex10Env : EthEnv :=
  { isMetaMask := true
  , isCoinbaseWallet := false
  , isBraveWallet := false
  , requestPermissionsResult := .ok ()
  , requestAccountsResult := .error { code := some 4001, message := "User rejected the request." }
  , ethAccountsResult := .ok []
  , ethChainIdResult := .ok "0x1" }

/-- C10 counterexample: with MetaMask installed, permissions granted and
`eth_requestAccounts` rejected with code 4001, `requestConnection`
rejects with that very error instead of resolving `null` — the returned
promise is not awaited inside the try, so the catch never runs.  (This
is why `connectWallet` has an explicit `error.code === 4001` handler.) -/
theorem C10_counterexample :
    requestConnectionMetamask (some cex10Env) =
      .error { code := some 4001, message := "User rejected the request." } ∧
    requestConnectionCoinbase
        (some { cex10Env with isMetaMask := false, isCoinbaseWallet := true }) =
      .error { code := some 4001, message := "User rejected the request." } := by
  decide

/-- C10 (amended): an extension provider's `requestConnection` resolves
`null` when the vendor flag is absent, and (for metamask) when the
awaited `wallet_requestPermissions` call throws; but the final
`eth_requestAccounts` promise is returned without `await` from inside
the try, so when it rejects — including a user rejection with code
4001 — the error propagates to the caller. -/
theorem C10_requestConnection_behavior (e : EthEnv) (err : ErrObj) :
    (¬ e.isMetaMask → requestConnectionMetamask (some e) = .ok none) ∧
    (requestConnectionMetamask none = .ok none) ∧
    (e.requestPermissionsResult = .error err →
      requestConnectionMetamask (some e) = .ok none) ∧
    (e.isMetaMask → e.requestPermissionsResult = .ok () →
      e.requestAccountsResult = .error err →
      requestConnectionMetamask (some e) = .error err) ∧
    (e.isCoinbaseWallet → e.requestAccountsResult = .error err →
      requestConnectionCoinbase (some e) = .error err) ∧
    (e.isBraveWallet → e.requestAccountsResult = .error err →
      requestConnectionBrave (some e) = .error err) := by
  refine ⟨fun h => ?_, rfl, fun h => ?_, fun h1 h2 h3 => ?_,
    fun h1 h2 => ?_, fun h1 h2 => ?_⟩ <;>
    simp_all [requestConnectionMetamask, requestConnectionCoinbase,
      requestConnectionBrave, Except.map]

/-- The first provider in the registry whose `detectInstalled` returns
true — the detection loop in `checkConnection`
(ConnectWalletButton.tsx lines 63-69), which iterates the three-provider
registry of src/Frontend/src/types/wallet-providers.ts. -/
def firstDetectedProvider (eth : Option EthEnv) : Option String :=
  ["metamask", "coinbase", "brave"].find? (fun pid => detectInstalledFor pid eth)

/-- `checkConnection` of the mount effect (ConnectWalletButton.tsx lines
44-87, first component variant): returns immediately when
`walletManuallyDisconnected` = "true"; only queries the injected
provider when it is present and `walletConnectionActive` = "true"; on an
empty account list or any request error it removes
`walletConnectionActive`; otherwise it stores the accounts, the first
account, the chain id, and the detected provider.  The fallback
`if (!currentWallet && window.ethereum) setCurrentWallet('metamask')`
reads the stale render-time `currentWallet`, so when that was null the
later queued update ('metamask') wins over the detection loop's. -/
def checkConnection (s : ComponentState) (st : Storage)
    (eth : Option EthEnv) : ComponentState × Storage :=
  if st.walletManuallyDisconnected = some "true" then (s, st)
  else
    match eth with
    | none => (s, st)
    | some e =>
      if st.walletConnectionActive ≠ some "true" then (s, st)
      else
        match e.ethAccountsResult with
        | .error _ => (s, { st with walletConnectionActive := none })
        | .ok walletAccounts =>
          let s1 := { s with accounts := walletAccounts }
          match walletAccounts with
          | [] => (s1, { st with walletConnectionActive := none })
          | a :: _ =>
            let s2 := { s1 with account := some a }
            match e.ethChainIdResult with
            | .error _ => (s2, { st with walletConnectionActive := none })
            | .ok chainId =>
              let s3 := { s2 with currentChain := some chainId }
              let s4 := match firstDetectedProvider (some e) with
                        | some pid => { s3 with walletProvider := some pid }
                        | none => s3
              let s5 := if s.walletProvider = none
                        then { s4 with walletProvider := some "metamask" }
                        else s4
              (s5, st)

/-- C3: on mount (state = initial), `checkConnection` sets `account`
only when `walletConnectionActive` = "true" and
`walletManuallyDisconnected` ≠ "true"; in every other case it leaves
both the component state and the storage untouched, whatever cached
accounts the injected provider would report. -/
theorem C3_restore_requires_flags (st : Storage) (eth : Option EthEnv) :
    ((checkConnection initialComponentState st eth).1.account ≠ none →
      st.walletConnectionActive = some "true" ∧
      st.walletManuallyDisconnected ≠ some "true") ∧
    (¬ (st.walletConnectionActive = some "true" ∧
        st.walletManuallyDisconnected ≠ some "true") →
      checkConnection initialComponentState st eth =
        (initialComponentState, st)) := by
  by_cases hm : st.walletManuallyDisconnected = some "true"
  · simp [checkConnection, hm, initialComponentState]
  · by_cases ha : st.walletConnectionActive = some "true"
    · refine ⟨fun _ => ⟨ha, hm⟩, fun hcon => absurd ⟨ha, hm⟩ hcon⟩
    · cases eth with
      | none => simp [checkConnection, hm, initialComponentState]
      | some e => simp [checkConnection, hm, ha, initialComponentState]

/-- `0x${n.toString(16)}`: the hex chain-id string the component builds
from the WalletConnect provider's numeric `chainId`. -/
def hexChainString (n : Nat) : String :=
  "0x" ++ String.mk (Nat.toDigits 16 n)

/-- The external outcomes a whole `connectWallet` call can observe: the
injected provider's behavior, the result of `initiateWalletConnectFlow`
(resolved account list or rejection), the WalletConnect provider
singleton after the flow (queried for `chainId`), and the environment of
a forced pre-connect disconnect. -/
structure ConnectEnv where
  eth : Option EthEnv
  wcFlow : Except ErrObj (List String)
  wcProviderAfterFlow : Option WCProviderState
  wcDisc : WCDisconnectEnv
deriving Repr, DecidableEq

/-- The chain id the component displays after a successful WalletConnect
flow (ConnectWalletButton.tsx lines 721-725): when the provider
singleton exists and reports a numeric `chainId`, its hex rendering;
otherwise the previous value is kept. -/
def wcChainAfterFlow (env : ConnectEnv) (old : Option String) : Option String :=
  match env.wcProviderAfterFlow with
  | some p =>
    match p.chainId with
    | some cid => some (hexChainString cid)
    | none => old
  | none => old

/-- `connectWallet` (ConnectWalletButton.tsx lines 685-797): sets the
loading flag, removes `walletManuallyDisconnected`, forces a disconnect
when an account is present, looks the provider up in the registry
(src/unnamed/part_000: metamask, coinbase, brave, walletconnect).  For
walletconnect it runs `initiateWalletConnectFlow`: a non-empty account
list stores accounts/first account/chain/provider id and sets
`walletConnectionActive` = "true"; an empty list is raised as an error
and every error lands in the catch blocks that null `walletProvider`.
For extension providers it opens the install URL and returns when
`detectInstalled` is false, otherwise awaits `requestConnection`: a
non-empty list stores accounts and sets the flag; null/empty results and
caught rejections (code 4001 or any other) null `walletProvider`.  The
`finally` block always closes the menu and clears the loading flag.
`preConnectState` is the prologue: set the loading flag, clear the
manual-disconnect key, and force a full disconnect when an account is
present. -/
def preConnectState (w : World) (env : ConnectEnv) : World :=
  let s0 := { w.comp with isLoading := true }
  let st0 := { w.store with walletManuallyDisconnected := none }
  if w.comp.account.isSome then
    handleDisconnect { comp := s0, store := st0, wc := w.wc } env.wcDisc
  else { comp := s0, store := st0, wc := w.wc }

def connectWallet (providerId : String) (w : World) (env : ConnectEnv) :
    World :=
  let w1 : World := preConnectState w env
  if providerId ∉ walletProviderIds then
    { w1 with comp := { w1.comp with isLoading := false } }
  else
    let s2 := { w1.comp with walletProvider := some providerId }
    if providerId = "walletconnect" then
      match env.wcFlow with
      | .ok (a :: rest) =>
        let s3 := { s2 with accounts := a :: rest, account := some a }
        let s4 := { s3 with currentChain := wcChainAfterFlow env s3.currentChain }
        { comp := { s4 with walletProvider := some "walletconnect"
                          , isLoading := false, menuOpen := false }
        , store := { w1.store with walletConnectionActive := some "true" }
        , wc := { w1.wc with provider := env.wcProviderAfterFlow } }
      | .ok [] =>
        { comp := { s2 with walletProvider := none
                          , isLoading := false, menuOpen := false }
        , store := w1.store
        , wc := { w1.wc with provider := env.wcProviderAfterFlow } }
      | .error _ =>
        { comp := { s2 with walletProvider := none
                          , isLoading := false, menuOpen := false }
        , store := w1.store
        , wc := { w1.wc with provider := env.wcProviderAfterFlow } }
    else
      if ¬ detectInstalledFor providerId env.eth then
        { comp := { s2 with isLoading := false, menuOpen := false }
        , store := w1.store, wc := w1.wc }
      else
        match requestConnectionFor providerId env.eth with
        | .ok (some (a :: rest)) =>
          { comp := { s2 with accounts := a :: rest, account := some a
                            , isLoading := false, menuOpen := false }
          , store := { w1.store with walletConnectionActive := some "true" }
          , wc := w1.wc }
        | .ok _ =>
          { comp := { s2 with walletProvider := none
                            , isLoading := false, menuOpen := false }
          , store := w1.store, wc := w1.wc }
        | .error _ =>
          { comp := { s2 with walletProvider := none
                            , isLoading := false, menuOpen := false }
          , store := w1.store, wc := w1.wc }

/-- Whatever branch is taken, a disconnect ends with no account and the
`walletConnectionActive` key removed. -/
theorem handleDisconnect_basic (w : World) (env : WCDisconnectEnv) :
    (handleDisconnect w env).comp.account = none ∧
    (handleDisconnect w env).store.walletConnectionActive = none := by
  unfold handleDisconnect disconnectWalletConnect resetState resetProvider
  by_cases h : w.comp.walletProvider = some "walletconnect" <;> simp [h]

/-- An extension provider's `requestConnection` can only produce a
result other than `ok null` when the vendor flag was set, in which case
`detectInstalled` is true. -/
theorem detect_of_requestConnection_not_null (pid : String)
    (eth : Option EthEnv)
    (hmem : pid ∈ (["metamask", "coinbase", "brave"] : List String))
    (h : requestConnectionFor pid eth ≠ .ok none) :
    detectInstalledFor pid eth = true := by
  fin_cases hmem <;> cases eth <;>
    simp_all [requestConnectionFor, requestConnectionMetamask,
      requestConnectionCoinbase, requestConnectionBrave,
      detectInstalledFor]

/-- C2: whenever the connection routine for the chosen provider resolves
with a non-empty account list (for walletconnect,
`initiateWalletConnectFlow`; for extension providers, the registry's
`requestConnection`), `connectWallet` ends Connected: `account` is the
first returned account, `accounts` the full list, `walletProvider` the
chosen id, and the persisted `walletConnectionActive` flag is the string
"true". -/
theorem C2_connect_success (w : World) (env : ConnectEnv) (pid : String)
    (a : String) (rest : List String)
    (h : (pid = "walletconnect" ∧ env.wcFlow = .ok (a :: rest)) ∨
         (pid ∈ (["metamask", "coinbase", "brave"] : List String) ∧
          requestConnectionFor pid env.eth = .ok (some (a :: rest)))) :
    (connectWallet pid w env).comp.account = some a ∧
    (connectWallet pid w env).comp.accounts = a :: rest ∧
    (connectWallet pid w env).comp.walletProvider = some pid ∧
    (connectWallet pid w env).store.walletConnectionActive = some "true" := by
  rcases h with ⟨hpid, hflow⟩ | ⟨hmem, hreq⟩
  · subst hpid
    have hmem : ("walletconnect" ∉ walletProviderIds) = False := by
      simp [walletProviderIds]
    simp [connectWallet, hmem, hflow]
  · have hdet : detectInstalledFor pid env.eth = true := by
      refine detect_of_requestConnection_not_null pid env.eth hmem ?_
      rw [hreq]; simp
    fin_cases hmem <;>
      simp [connectWallet, walletProviderIds, hreq, hdet]

/-- C4: when the connection routine rejects with an error carrying the
user-rejection code 4001, `connectWallet` ends Disconnected: no
`account`, `walletProvider` null, and the persisted
`walletConnectionActive` flag is not set by the attempt (it either keeps
its previous value or has been removed by the forced pre-connect
disconnect). -/
theorem C4_connect_rejected (w : World) (env : ConnectEnv) (pid : String)
    (err : ErrObj) (_hcode : err.code = some 4001)
    (h : (pid = "walletconnect" ∧ env.wcFlow = .error err) ∨
         (pid ∈ (["metamask", "coinbase", "brave"] : List String) ∧
          requestConnectionFor pid env.eth = .error err)) :
    (connectWallet pid w env).comp.account = none ∧
    (connectWallet pid w env).comp.walletProvider = none ∧
    ((connectWallet pid w env).store.walletConnectionActive =
        w.store.walletConnectionActive ∨
     (connectWallet pid w env).store.walletConnectionActive = none) := by
  have hdis := handleDisconnect_basic
    { comp := { w.comp with isLoading := true }
    , store := { w.store with walletManuallyDisconnected := none }
    , wc := w.wc } env.wcDisc
  rcases h with ⟨hpid, hflow⟩ | ⟨hmem, hreq⟩
  · subst hpid
    have hmem : ("walletconnect" ∉ walletProviderIds) = False := by
      simp [walletProviderIds]
    rcases hacct : w.comp.account with _ | acct <;>
      simp_all [connectWallet, preConnectState, hmem, hflow, hacct]
  · have hdet : detectInstalledFor pid env.eth = true := by
      refine detect_of_requestConnection_not_null pid env.eth hmem ?_
      rw [hreq]; simp
    fin_cases hmem <;>
      rcases hacct : w.comp.account with _ | acct <;>
        simp_all [connectWallet, preConnectState, walletProviderIds, hreq, hdet, hacct]

/-- A remote-disconnect environment where nothing throws. -/
def benignDisconnectEnv : WCDisconnectEnv :=
  { closeModalThrows := false, providerDisconnectOk := true }

/-- C1 witness: the amended disconnect theorem evaluated on the concrete
WalletConnect-connected world. -/
theorem C1_witness :
    (handleDisconnect wcConnectedWorld benignDisconnectEnv).comp.account = none ∧
    (handleDisconnect wcConnectedWorld benignDisconnectEnv).store.walletManuallyDisconnected = none :=
  ⟨(C1_disconnect_clears_state wcConnectedWorld benignDisconnectEnv).1,
   (C1_disconnect_clears_state wcConnectedWorld benignDisconnectEnv).2.2.2.2.2.1
     (by decide)⟩

/-- An `EthEnv` where MetaMask is installed and the user approves both
prompts, exposing two accounts. -/
def happyMetamaskEnv : EthEnv :=
  { isMetaMask := true
  , isCoinbaseWallet := false
  , isBraveWallet := false
  , requestPermissionsResult := .ok ()
  , requestAccountsResult := .ok ["0xaaa", "0xbbb"]
  , ethAccountsResult := .ok ["0xaaa", "0xbbb"]
  , ethChainIdResult := .ok "0x1" }

/-- A connect environment for a successful MetaMask attempt. -/
def happyConnectEnv : ConnectEnv :=
  { eth := some happyMetamaskEnv
  , wcFlow := .error { code := none, message := "unused" }
  , wcProviderAfterFlow := none
  , wcDisc := benignDisconnectEnv }

/-- The world of a freshly loaded page. -/
def freshWorld : World :=
  { comp := initialComponentState, store := emptyStorage, wc := initialWCModule }

/-- C2 witness: a MetaMask connect returning ["0xaaa", "0xbbb"] ends
Connected on those accounts with the persistence flag set. -/
theorem C2_witness :
    (connectWallet "metamask" freshWorld happyConnectEnv).comp.account = some "0xaaa" ∧
    (connectWallet "metamask" freshWorld happyConnectEnv).comp.accounts = ["0xaaa", "0xbbb"] ∧
    (connectWallet "metamask" freshWorld happyConnectEnv).comp.walletProvider = some "metamask" ∧
    (connectWallet "metamask" freshWorld happyConnectEnv).store.walletConnectionActive = some "true" :=
  C2_connect_success freshWorld happyConnectEnv "metamask" "0xaaa" ["0xbbb"]
    (Or.inr ⟨by decide, by decide⟩)

/-- A storage as left behind by an explicit manual disconnect. -/
def manuallyDisconnectedStorage : Storage :=
  { emptyStorage with walletManuallyDisconnected := some "true" }

/-- C3 witness: with the manual-disconnect flag set, `checkConnection`
changes nothing even though the injected provider reports cached
accounts. -/
theorem C3_witness :
    checkConnection initialComponentState manuallyDisconnectedStorage
        (some happyMetamaskEnv) =
      (initialComponentState, manuallyDisconnectedStorage) :=
  (C3_restore_requires_flags manuallyDisconnectedStorage
      (some happyMetamaskEnv)).2 (by decide)

/-- A connect environment where the user rejects the MetaMask
`eth_requestAccounts` prompt with code 4001 (the rejection propagates
out of `requestConnection`, see C10). -/
def rejectedConnectEnv : ConnectEnv :=
  { eth := some cex10Env
  , wcFlow := .error { code := some 4001, message := "User rejected the request." }
  , wcProviderAfterFlow := none
  , wcDisc := benignDisconnectEnv }

/-- C4 witness: a MetaMask connect rejected with code 4001 ends
Disconnected with no provider id and the persistence flag untouched. -/
theorem C4_witness :
    (connectWallet "metamask" freshWorld rejectedConnectEnv).comp.account = none ∧
    (connectWallet "metamask" freshWorld rejectedConnectEnv).comp.walletProvider = none ∧
    ((connectWallet "metamask" freshWorld rejectedConnectEnv).store.walletConnectionActive =
        freshWorld.store.walletConnectionActive ∨
     (connectWallet "metamask" freshWorld rejectedConnectEnv).store.walletConnectionActive = none) :=
  C4_connect_rejected freshWorld rejectedConnectEnv "metamask"
    { code := some 4001, message := "User rejected the request." }
    (by decide) (Or.inr ⟨by decide, by decide⟩)

/-- C9 witness: the flag-clearing theorem evaluated on the concrete
WalletConnect-connected world. -/
theorem C9_witness :
    (resetProvider wcConnectedWorld.store wcConnectedWorld.wc).1.walletManuallyDisconnected = none ∧
    (handleDisconnect wcConnectedWorld benignDisconnectEnv).store.walletManuallyDisconnected = none :=
  ⟨(C9_resetProvider_clears_manual_flag wcConnectedWorld.store wcConnectedWorld.wc
      wcConnectedWorld benignDisconnectEnv).1,
   (C9_resetProvider_clears_manual_flag wcConnectedWorld.store wcConnectedWorld.wc
      wcConnectedWorld benignDisconnectEnv).2.2.2 (by decide)⟩

/-- C10 witness: the amended behavior theorem evaluated on the concrete
4001-rejection environment. -/
theorem C10_witness :
    requestConnectionMetamask (some cex10Env) =
      .error { code := some 4001, message := "User rejected the request." } :=
  (C10_requestConnection_behavior cex10Env
      { code := some 4001, message := "User rejected the request." }).2.2.2.1
    (by decide) (by decide) (by decide)

/-- The remote requests an operation can issue (used where a claim is
about which remote calls are attempted). -/
inductive RemoteCall where
  | wcSwitchChain (chainId : String)
  | ethSwitchChain (chainId : String)
  | ethAddChain (chainId : String)
  | wcSwitchAccount (account : String)
  | ethRequestPermissions
  | ethAccountsQuery
deriving Repr, DecidableEq

/-- Value of a hex digit, as `parseInt` with radix 16 accepts it. -/
def hexDigitVal (c : Char) : Option Nat :=
  if c.isDigit then some (c.toNat - 48)
  else if c ≥ 'a' ∧ c ≤ 'f' then some (c.toNat - 87)
  else if c ≥ 'A' ∧ c ≤ 'F' then some (c.toNat - 55)
  else none

/-- Accumulate hex digits until the first invalid character
(`parseInt` parses the longest valid prefix). -/
def hexAccum : List Char → Nat → Nat
  | [], acc => acc
  | c :: rest, acc =>
    match hexDigitVal c with
    | some d => hexAccum rest (acc * 16 + d)
    | none => acc

/-- `s.startsWith('0x')`, computed on the character list so concrete
inputs evaluate inside the kernel. -/
def startsWith0x (s : String) : Bool :=
  match s.toList with
  | '0' :: 'x' :: _ => true
  | _ => false

/-- `parseInt(s, 16)`: skips a leading "0x", yields NaN (`none`) when no
valid digit follows, else the value of the longest valid digit prefix. -/
def parseIntHex (s : String) : Option Nat :=
  let body := if startsWith0x s then s.toList.drop 2 else s.toList
  match body with
  | [] => none
  | c :: _ =>
    match hexDigitVal c with
    | none => none
    | some _ => some (hexAccum body 0)

/-- `Number(s)` restricted to the inputs this code feeds it: `""` is 0,
a pure decimal digit string is its value, anything else is NaN. -/
def jsNumberNat (s : String) : Option Nat :=
  match s.toList with
  | [] => some 0
  | cs =>
    if cs.all Char.isDigit then
      some (cs.foldl (fun acc c => acc * 10 + (c.toNat - 48)) 0)
    else none

/-- The `targetChainId` computation shared by the source's chain-switch
code: `chainId.startsWith('0x') ? parseInt(chainId, 16) : Number(chainId)`
(`none` = NaN). -/
def parseChainIdNum (chainId : String) : Option Nat :=
  if startsWith0x chainId then parseIntHex chainId else jsNumberNat chainId

/-- The hardcoded numeric chain ids accepted by `switchEthereumChain`
(src/unnamed/part_003 line 286) — note this is [1, 10, 42161], not the
registry, which also contains Polygon (0x89 = 137). -/
def supportedNumericChainIds : List Nat := [1, 10, 42161]

/-- Failure conditions of `switchEthereumChain`. -/
inductive SwitchChainErr where
  | providerNotInitialized
  | unsupportedChain
  | providerError (e : ErrObj)
deriving Repr, DecidableEq

/-- `switchEthereumChain` (src/unnamed/part_003 lines 274-302): throws
when the provider singleton is absent; converts the chain id to a
number; throws "Unsupported chain ID" when the number is not one of
[1, 10, 42161]; otherwise issues `wallet_switchEthereumChain` and
rethrows its error.  NaN is never in the list, so an unparsable id is
also unsupported. -/
def switchEthereumChain (chainId : String) (providerPresent : Bool)
    (reqResult : Except ErrObj Unit) : Except SwitchChainErr Unit :=
  if !providerPresent then .error .providerNotInitialized
  else
    match parseChainIdNum chainId with
    | none => .error .unsupportedChain
    | some target =>
      if target ∉ supportedNumericChainIds then .error .unsupportedChain
      else
        match reqResult with
        | .ok _ => .ok ()
        | .error e => .error (.providerError e)

/-- External outcomes a component `switchChain` call can observe. -/
structure SwitchChainEnv where
  wcProviderPresent : Bool
  wcRequestResult : Except ErrObj Unit
  ethPresent : Bool
  ethSwitchResult : Except ErrObj Unit
  ethAddResult : Except ErrObj Unit
deriving Repr, DecidableEq

/-- The remote requests issued by the component's `switchChain`
(ConnectWalletButton.tsx lines 799-881), by branch: the walletconnect
path issues `wallet_switchEthereumChain` on the WalletConnect provider
when one exists (its error is caught and only logged); the extension
path issues it on `window.ethereum` and, on a 4902 error for a
registered chain, follows up with `wallet_addEthereumChain` (whose
error is also only logged). -/
def switchChainCalls (chainId : String) (s : ComponentState)
    (env : SwitchChainEnv) : List RemoteCall :=
  if s.walletProvider = some "walletconnect" then
    if !env.wcProviderPresent then []
    else [.wcSwitchChain chainId]
  else if !env.ethPresent then []
  else
    match env.ethSwitchResult with
    | .ok _ => [.ethSwitchChain chainId]
    | .error e =>
      if e.code = some 4902 then
        match chains.find? (fun c => c.id = chainId) with
        | none => [.ethSwitchChain chainId]
        | some c => [.ethSwitchChain chainId, .ethAddChain c.id]
      else [.ethSwitchChain chainId]

/-- The component's `switchChain`: the very first statement is the
optimistic `setCurrentChain(chainId)` — run before any provider call and
never rolled back (every failure is caught and logged, the comment even
says the UI is deliberately kept updated) — and every exit path runs the
`finally` that closes the menu.  So the state outcome is the same in all
branches; the branches differ only in which remote calls they issue. -/
def switchChain (chainId : String) (s : ComponentState)
    (env : SwitchChainEnv) : ComponentState × List RemoteCall :=
  ( { s with currentChain := some chainId, menuOpen := false }
  , switchChainCalls chainId s env )

/-- A switch-chain environment where the WalletConnect provider exists
but the remote switch request fails. -/
def cex7Env : SwitchChainEnv :=
  { wcProviderPresent := true
  , wcRequestResult := .error { code := some 4902, message := "Unrecognized chain ID" }
  , ethPresent := false
  , ethSwitchResult := .ok ()
  , ethAddResult := .ok () }

/-- C7 counterexample: switching the walletconnect connection to
"0x539" (1337, not in the registry) changes `currentChain` to "0x539"
immediately — the claim's "leaves activeChainId unchanged" is false, and
no UnsupportedChain failure is surfaced by the component (the remote
error is swallowed). -/
theorem C7_counterexample :
    (switchChain "0x539" wcConnectedWorld.comp cex7Env).1.currentChain = some "0x539" ∧
    wcConnectedWorld.comp.currentChain ≠ some "0x539" := by
  decide

/-- C7 (amended): on the remote-pairing path the Controller's
`switchChain` optimistically sets `currentChain` to the requested id
before any confirmation and keeps it there whatever the provider does;
the UnsupportedChain failure lives only in the standalone
`switchEthereumChain` helper, which rejects any id whose numeric value
is outside the hardcoded set [1, 10, 42161] (not the registry) and
performs no state change. -/
theorem C7_switchChain_optimistic (chainId : String) (s : ComponentState)
    (env : SwitchChainEnv) (rq : Except ErrObj Unit)
    (_hwc : s.walletProvider = some "walletconnect")
    (hunsup : ∀ n ∈ parseChainIdNum chainId, n ∉ supportedNumericChainIds) :
    (switchChain chainId s env).1.currentChain = some chainId ∧
    switchEthereumChain chainId true rq = .error .unsupportedChain := by
  refine ⟨rfl, ?_⟩
  unfold switchEthereumChain
  rcases hp : parseChainIdNum chainId with _ | n
  · simp
  · simp [hunsup n (by simp [hp])]

/-- C7 witness: the amended theorem evaluated at the concrete
unregistered chain id "0x539". -/
theorem C7_witness :
    (switchChain "0x539" wcConnectedWorld.comp cex7Env).1.currentChain = some "0x539" ∧
    switchEthereumChain "0x539" true (.ok ()) = .error .unsupportedChain :=
  C7_switchChain_optimistic "0x539" wcConnectedWorld.comp cex7Env (.ok ())
    (by decide) (by decide)

/-- External outcomes a `switchAccount` call can observe: whether the
WalletConnect provider singleton exists and exposes a `request`
function, the outcome of its fire-and-forget
`wallet_switchEthereumAccount` request (always caught), whether
`window.ethereum` exists, and the outcomes of the permissions prompt and
the follow-up `eth_accounts` query of the extension path. -/
structure SwitchAccountEnv where
  wcProviderPresent : Bool
  wcHasRequestMethod : Bool
  wcSwitchResult : Except ErrObj Unit
  ethPresent : Bool
  permissionsResult : Except ErrObj Unit
  ethAccountsResult : Except ErrObj (List String)
deriving Repr, DecidableEq

/-- `switchAccount` (ConnectWalletButton.tsx lines 883-944): a no-op on
the current account.  WalletConnect path: reassigns `account` locally,
then — when the provider exists and has a `request` function — fires a
`wallet_switchEthereumAccount` request whose result and rejection are
ignored (`.catch` only logs), and closes the menu.  Extension path:
requests `wallet_requestPermissions`; on success queries `eth_accounts`
and stores the refreshed list, updating `account` to its first element
only when the list is non-empty; all request errors are caught and
logged; the menu is closed. -/
def switchAccount (newAccount : String) (s : ComponentState)
    (env : SwitchAccountEnv) : ComponentState × List RemoteCall :=
  if some newAccount = s.account then (s, [])
  else if s.walletProvider = some "walletconnect" then
    let s1 := { s with account := some newAccount }
    let calls :=
      if env.wcProviderPresent ∧ env.wcHasRequestMethod then
        [RemoteCall.wcSwitchAccount newAccount]
      else []
    ({ s1 with menuOpen := false }, calls)
  else if env.ethPresent then
    match env.permissionsResult with
    | .error _ => ({ s with menuOpen := false }, [.ethRequestPermissions])
    | .ok _ =>
      match env.ethAccountsResult with
      | .error _ =>
        ({ s with menuOpen := false }, [.ethRequestPermissions, .ethAccountsQuery])
      | .ok walletAccounts =>
        let s1 := { s with accounts := walletAccounts }
        let s2 := match walletAccounts with
                  | [] => s1
                  | a :: _ => { s1 with account := some a }
        ({ s2 with menuOpen := false }, [.ethRequestPermissions, .ethAccountsQuery])
  else ({ s with menuOpen := false }, [])

/-- A switch-account environment with a live WalletConnect provider that
rejects the account-switch method. -/
def cex8Env : SwitchAccountEnv :=
  { wcProviderPresent := true
  , wcHasRequestMethod := true
  , wcSwitchResult := .error { code := none, message := "method not supported" }
  , ethPresent := false
  , permissionsResult := .ok ()
  , ethAccountsResult := .ok [] }

/-- C8 counterexample: switching the walletconnect connection from
"0xaaa" to "0xbbb" (already in `knownAccounts`) does issue a remote
`wallet_switchEthereumAccount` request — the claim's "attempts no remote
renegotiation" is false when the provider exposes `request`. -/
theorem C8_counterexample :
    (switchAccount "0xbbb" wcConnectedWorld.comp cex8Env).2 =
      [RemoteCall.wcSwitchAccount "0xbbb"] := by
  decide

/-- C8 (amended): on the remote-pairing path, `switchAccount` with a new
account reassigns `activeAccount` locally and closes the menu, leaving
every other state field unchanged regardless of any remote outcome; it
additionally fires one best-effort `wallet_switchEthereumAccount`
request when the provider singleton exposes `request` (and no remote
call otherwise), whose result and failure are ignored. -/
theorem C8_switchAccount_wc_local (s : ComponentState) (newAccount : String)
    (env : SwitchAccountEnv)
    (hwc : s.walletProvider = some "walletconnect")
    (_hmem : newAccount ∈ s.accounts)
    (hne : some newAccount ≠ s.account) :
    (switchAccount newAccount s env).1 =
      { s with account := some newAccount, menuOpen := false } ∧
    ((switchAccount newAccount s env).2 = [] ∨
     (switchAccount newAccount s env).2 = [RemoteCall.wcSwitchAccount newAccount]) := by
  unfold switchAccount
  rw [if_neg hne]
  simp only [hwc, if_pos rfl]
  by_cases hq : env.wcProviderPresent ∧ env.wcHasRequestMethod <;>
    simp [hq]

/-- C8 witness: the amended theorem evaluated on the concrete
WalletConnect world and environment. -/
theorem C8_witness :
    (switchAccount "0xbbb" wcConnectedWorld.comp cex8Env).1 =
      { wcConnectedWorld.comp with account := some "0xbbb", menuOpen := false } ∧
    ((switchAccount "0xbbb" wcConnectedWorld.comp cex8Env).2 = [] ∨
     (switchAccount "0xbbb" wcConnectedWorld.comp cex8Env).2 =
       [RemoteCall.wcSwitchAccount "0xbbb"]) :=
  C8_switchAccount_wc_local wcConnectedWorld.comp "0xbbb" cex8Env
    (by decide) (by decide) (by decide)

/-- The events the connection promise of `initiateWalletConnectFlow`
(src/Frontend/src/layout/Layout.tsx lines 1142-1252, the session-manager
variant with the 30-second budget) can observe while waiting, in arrival
order: a `connect` event (carrying the event's account list and, as
fallback, the provider's own `accounts`), an `accountsChanged` event, an
`error` event, a `disconnect` event, and the one-second
already-connected check (reading the provider's `accounts`). -/
inductive WCEvent where
  | connectEvt (connectedAccounts : List String) (providerAccounts : List String)
  | accountsChangedEvt (accounts : List String)
  | errorEvt (message : String)
  | disconnectEvt
  | alreadyConnectedCheck (providerAccounts : List String)
deriving Repr, DecidableEq

/-- A settled connection promise: resolved with accounts or rejected
with a normalized `{code, message}` error. -/
inductive ConnOutcome where
  | resolved (accounts : List String)
  | rejected (err : ErrObj)
deriving Repr, DecidableEq

/-- The normalized user-rejection error the `error` and `disconnect`
handlers reject with (Layout.tsx lines 1167-1170, 1182-1185). -/
def userRejectedError : ErrObj :=
  { code := some 4001, message := "User rejected the request." }

/-- The error the 30-second timeout rejects with when no accounts are
present (Layout.tsx lines 1236-1240); it marks the ConnectionTimeout
condition (its message, not its code, distinguishes it). -/
def connectionTimeoutError : ErrObj :=
  { code := some 4001
  , message := "Connection timed out. User may have rejected the request or connection process took too long." }

/-- The fixed wait budget of the connection promise: 30000 milliseconds
(Layout.tsx line 1243). -/
def connectionTimeoutMs : Nat := 30000

/-- What a single event does to the waiting promise (Layout.tsx
handlers `onConnect`, `onAccountsChanged`, `onError`, `onDisconnect` and
the 1-second check): `connect` resolves the event's accounts when
non-empty, else the provider's accounts when those are non-empty, else
keeps waiting; `accountsChanged` resolves a non-empty list;
`error` and `disconnect` reject with the normalized user-rejection
error; the already-connected check resolves the provider's accounts when
non-empty. -/
def settleOf : WCEvent → Option ConnOutcome
  | .connectEvt (a :: rest) _ => some (.resolved (a :: rest))
  | .connectEvt [] (a :: rest) => some (.resolved (a :: rest))
  | .connectEvt [] [] => none
  | .accountsChangedEvt (a :: rest) => some (.resolved (a :: rest))
  | .accountsChangedEvt [] => none
  | .errorEvt _ => some (.rejected userRejectedError)
  | .disconnectEvt => some (.rejected userRejectedError)
  | .alreadyConnectedCheck (a :: rest) => some (.resolved (a :: rest))
  | .alreadyConnectedCheck [] => none

/-- Outcome of the connection promise given the events arriving before
the 30-second mark and the provider's `accounts` when the timeout fires:
the first settling event wins; if none settles, the timeout handler
(Layout.tsx lines 1224-1243) checks the accounts once more and resolves
them when non-empty, rejecting with the timeout error only otherwise. -/
def connectionPromiseOutcome (events : List WCEvent)
    (accountsAtTimeout : List String) : ConnOutcome :=
  match events.findSome? settleOf with
  | some o => o
  | none =>
    match accountsAtTimeout with
    | a :: rest => .resolved (a :: rest)
    | [] => .rejected connectionTimeoutError

/-- When no event of a prefix settles the promise, the first settling
event after it decides the outcome. -/
theorem findSome?_append_of_forall_none {α β : Type} (l1 l2 : List α)
    (f : α → Option β) (h : ∀ e ∈ l1, f e = none) :
    (l1 ++ l2).findSome? f = l2.findSome? f := by
  induction l1 with
  | nil => simp
  | cons x xs ih =>
    simp only [List.cons_append, List.findSome?_cons]
    rw [h x (by simp)]
    exact ih (fun e he => h e (by simp [he]))

/-- C5: for any sequence of non-settling events, the connection promise
resolves with the account list delivered by the first `connect` or
`accountsChanged` event carrying a non-empty list; a `disconnect` event
while waiting rejects with the normalized user-rejection error (code
4001, the UserRejected equivalent); and when the fixed 30000 ms budget
elapses with nothing settled, the timeout resolves the provider's
accounts if some are present and rejects with the ConnectionTimeout
error only when none are. -/
theorem C5_connection_promise (pre : List WCEvent) (a : String)
    (rest accsAt30 pAccs : List String)
    (hpre : ∀ e ∈ pre, settleOf e = none) :
    connectionTimeoutMs = 30000 ∧
    connectionPromiseOutcome (pre ++ [.connectEvt (a :: rest) pAccs]) accsAt30 =
      .resolved (a :: rest) ∧
    connectionPromiseOutcome (pre ++ [.accountsChangedEvt (a :: rest)]) accsAt30 =
      .resolved (a :: rest) ∧
    connectionPromiseOutcome (pre ++ [.disconnectEvt]) accsAt30 =
      .rejected userRejectedError ∧
    (accsAt30 = [] →
      connectionPromiseOutcome pre accsAt30 = .rejected connectionTimeoutError) ∧
    (∀ b brest, accsAt30 = b :: brest →
      connectionPromiseOutcome pre accsAt30 = .resolved (b :: brest)) := by
  have hnone : pre.findSome? settleOf = none := by
    have := findSome?_append_of_forall_none pre [] settleOf hpre
    simpa using this
  refine ⟨rfl, ?_, ?_, ?_, ?_, ?_⟩
  · unfold connectionPromiseOutcome
    rw [findSome?_append_of_forall_none pre _ settleOf hpre]
    simp [List.findSome?, settleOf]
  · unfold connectionPromiseOutcome
    rw [findSome?_append_of_forall_none pre _ settleOf hpre]
    simp [List.findSome?, settleOf]
  · unfold connectionPromiseOutcome
    rw [findSome?_append_of_forall_none pre _ settleOf hpre]
    simp [List.findSome?, settleOf]
  · intro h30
    unfold connectionPromiseOutcome
    rw [hnone, h30]
  · intro b brest h30
    unfold connectionPromiseOutcome
    rw [hnone, h30]

/-- C5 witness: concrete runs of the connection promise — a disconnect
rejects with the user-rejection error, and an empty timeout rejects with
the ConnectionTimeout error. -/
theorem C5_witness :
    connectionPromiseOutcome [WCEvent.disconnectEvt] [] =
      .rejected userRejectedError ∧
    connectionPromiseOutcome [] [] = .rejected connectionTimeoutError :=
  ⟨(C5_connection_promise [] "0xaaa" [] [] [] (by simp)).2.2.2.1,
   (C5_connection_promise [] "0xaaa" [] [] [] (by simp)).2.2.2.2.1 rfl⟩

/-- The `disconnectWallet` callback (ConnectWalletButton.tsx lines
582-602): resets the component state fields and removes the
`walletconnect` and `WALLETCONNECT_DEEPLINK_CHOICE` keys.  Invoked by
the WalletConnect `disconnect` event and by an empty `accountsChanged`
event. -/
def disconnectWallet (s : ComponentState) (st : Storage) :
    ComponentState × Storage :=
  ( { s with account := none
           , accounts := []
           , currentChain := none
           , walletProvider := none
           , menuOpen := false
           , menuTab := .networks }
  , { st with walletconnectKey := none, wcDeeplinkChoice := none } )

/-- The WalletConnect `accountsChanged` listener of the mount effect
(ConnectWalletButton.tsx lines 620-628): a non-empty list stores the
accounts, selects the first, and sets `walletConnectionActive` = "true";
an empty list runs `disconnectWallet`.  Note it never touches
`walletProvider`. -/
def wcAccountsChangedHandler (accs : List String) (s : ComponentState)
    (st : Storage) : ComponentState × Storage :=
  match accs with
  | a :: rest =>
    ( { s with accounts := a :: rest, account := some a }
    , { st with walletConnectionActive := some "true" } )
  | [] => disconnectWallet s st

/-- One user- or event-driven operation of the Controller, with the
external outcomes it observes baked in. -/
inductive CtrlAction where
  | connectAct (pid : String) (env : ConnectEnv)
  | disconnectAct (env : WCDisconnectEnv)
  | switchAccountAct (newAccount : String) (env : SwitchAccountEnv)
  | switchChainAct (chainId : String) (env : SwitchChainEnv)
  | accountsChangedAct (accs : List String)
  | wcDisconnectEventAct
deriving Repr, DecidableEq

/-- Apply one action to the world. -/
def applyAction (w : World) : CtrlAction → World
  | .connectAct pid env => connectWallet pid w env
  | .disconnectAct env => handleDisconnect w env
  | .switchAccountAct acc env => { w with comp := (switchAccount acc w.comp env).1 }
  | .switchChainAct cid env => { w with comp := (switchChain cid w.comp env).1 }
  | .accountsChangedAct accs =>
    let r := wcAccountsChangedHandler accs w.comp w.store
    { w with comp := r.1, store := r.2 }
  | .wcDisconnectEventAct =>
    let r := disconnectWallet w.comp w.store
    { w with comp := r.1, store := r.2 }

/-- Run a sequence of actions from a starting world; the states this
reaches from the fresh world are the reachable states of the
Controller. -/
def runActions (w : World) : List CtrlAction → World
  | [] => w
  | a :: rest => runActions (applyAction w a) rest

/-- The claimed invariant: `account` is non-null exactly when `accounts`
is non-empty and `walletProvider` is set, and when `account` is null the
other two are cleared with it. -/
def connInvariant (s : ComponentState) : Prop :=
  (s.account ≠ none ↔ (s.accounts ≠ [] ∧ s.walletProvider ≠ none)) ∧
  (s.account = none → s.accounts = [] ∧ s.walletProvider = none)

instance (s : ComponentState) : Decidable (connInvariant s) := by
  unfold connInvariant
  infer_instance

/-- A fully cleared connection satisfies the invariant. -/
theorem inv_of_cleared (s : ComponentState) (h1 : s.account = none)
    (h2 : s.accounts = []) (h3 : s.walletProvider = none) :
    connInvariant s := by
  simp [connInvariant, h1, h2, h3]

/-- A fully populated connection satisfies the invariant. -/
theorem inv_of_connected (s : ComponentState) (h1 : s.account ≠ none)
    (h2 : s.accounts ≠ []) (h3 : s.walletProvider ≠ none) :
    connInvariant s := by
  simp [connInvariant, h1, h2, h3]

/-- Every branch of a disconnect clears the three connection fields
together. -/
theorem handleDisconnect_clears (w : World) (env : WCDisconnectEnv) :
    (handleDisconnect w env).comp.account = none ∧
    (handleDisconnect w env).comp.accounts = [] ∧
    (handleDisconnect w env).comp.walletProvider = none := by
  unfold handleDisconnect disconnectWalletConnect resetState resetProvider
  by_cases h : w.comp.walletProvider = some "walletconnect" <;> simp [h]

/-- After the connect prologue the connection fields are cleared: either
they already were (invariant, no account) or the forced disconnect
cleared them. -/
theorem preConnectState_clears (w : World) (env : ConnectEnv)
    (hinv : connInvariant w.comp) :
    (preConnectState w env).comp.account = none ∧
    (preConnectState w env).comp.accounts = [] ∧
    (preConnectState w env).comp.walletProvider = none := by
  unfold preConnectState
  rcases hacct : w.comp.account with _ | acct
  · have := hinv.2 hacct
    simp [hacct, this.1, this.2]
  · simpa [hacct] using handleDisconnect_clears
      { comp := { w.comp with isLoading := true }
      , store := { w.store with walletManuallyDisconnected := none }
      , wc := w.wc } env.wcDisc

/-- `connectWallet` preserves the invariant as long as an extension
provider is only attempted when installed (when it is not, the early
install-URL return leaves `walletProvider` assigned with no account). -/
theorem connectWallet_inv (pid : String) (w : World) (env : ConnectEnv)
    (hinv : connInvariant w.comp)
    (hdet : pid ∈ (["metamask", "coinbase", "brave"] : List String) →
      detectInstalledFor pid env.eth = true) :
    connInvariant (connectWallet pid w env).comp := by
  obtain ⟨hpa, hpl, hpp⟩ := preConnectState_clears w env hinv
  unfold connectWallet
  by_cases hmem : pid ∈ walletProviderIds
  case neg =>
    rw [if_pos hmem]
    exact inv_of_cleared _ hpa hpl hpp
  case pos =>
    rw [if_neg (not_not_intro hmem)]
    by_cases hwc : pid = "walletconnect"
    · subst hwc
      rw [if_pos rfl]
      cases hflow : env.wcFlow with
      | ok l =>
        cases l with
        | nil =>
          simp only [hflow]
          exact inv_of_cleared _ (by simp [hpa]) (by simp [hpl]) (by simp)
        | cons a rest =>
          simp only [hflow]
          exact inv_of_connected _ (by simp) (by simp) (by simp)
      | error e =>
        simp only [hflow]
        exact inv_of_cleared _ (by simp [hpa]) (by simp [hpl]) (by simp)
    · rw [if_neg hwc]
      have hext : pid ∈ (["metamask", "coinbase", "brave"] : List String) := by
        fin_cases hmem <;> simp_all [walletProviderIds]
      rw [if_neg (by simp [hdet hext])]
      cases hr : requestConnectionFor pid env.eth with
      | ok v =>
        cases v with
        | none =>
          simp only [hr]
          exact inv_of_cleared _ (by simp [hpa]) (by simp [hpl]) (by simp)
        | some l =>
          cases l with
          | nil =>
            simp only [hr]
            exact inv_of_cleared _ (by simp [hpa]) (by simp [hpl]) (by simp)
          | cons a rest =>
            simp only [hr]
            exact inv_of_connected _ (by simp) (by simp) (by simp)
      | error e =>
        simp only [hr]
        exact inv_of_cleared _ (by simp [hpa]) (by simp [hpl]) (by simp)

/-- `switchAccount` preserves the invariant when invoked from a
Connected state, as long as the extension path's refreshed `eth_accounts`
list is non-empty (an empty refresh clears `accounts` but keeps
`account`). -/
theorem switchAccount_inv (newAccount : String) (s : ComponentState)
    (env : SwitchAccountEnv) (hinv : connInvariant s)
    (hacc : s.account ≠ none)
    (hfresh : s.walletProvider ≠ some "walletconnect" →
      env.permissionsResult = .ok () →
      ∀ l, env.ethAccountsResult = .ok l → l ≠ []) :
    connInvariant (switchAccount newAccount s env).1 := by
  have hconn := hinv.1.mp hacc
  unfold switchAccount
  by_cases h0 : some newAccount = s.account
  · simpa [h0] using hinv
  · rw [if_neg h0]
    by_cases hwc : s.walletProvider = some "walletconnect"
    · rw [if_pos hwc]
      exact inv_of_connected _ (by simp) (by simp [hconn.1]) (by simp [hwc])
    · rw [if_neg hwc]
      by_cases heth : env.ethPresent
      case neg =>
        simp only [heth, if_false]
        exact inv_of_connected _ (by simp [hacc]) (by simp [hconn.1])
          (by simp [hconn.2])
      case pos =>
        simp only [heth, if_true]
        cases hperm : env.permissionsResult with
        | error e =>
          simp only [hperm]
          exact inv_of_connected _ (by simp [hacc]) (by simp [hconn.1])
            (by simp [hconn.2])
        | ok u =>
          cases hea : env.ethAccountsResult with
          | error e =>
            simp only [hperm, hea]
            exact inv_of_connected _ (by simp [hacc]) (by simp [hconn.1])
              (by simp [hconn.2])
          | ok l =>
            cases l with
            | nil => exact absurd rfl (hfresh hwc (by simpa using hperm) [] hea)
            | cons a rest =>
              simp only [hperm, hea]
              exact inv_of_connected _ (by simp) (by simp) (by simp [hconn.2])

/-- The side conditions under which the Controller's operations preserve
the invariant — exactly the cases the counterexample family exhibits are
excluded: an extension connect attempted while the provider is not
installed (the early install-URL return leaves `walletProvider` set with
no account), an account switch outside Connected or whose refreshed
`eth_accounts` list is empty (it clears `accounts` but keeps `account`),
and a non-empty `accountsChanged` event arriving while no provider is
active (it sets `account` but never `walletProvider`). -/
def preservesCondition (w : World) : CtrlAction → Prop
  | .connectAct pid env =>
    pid ∈ (["metamask", "coinbase", "brave"] : List String) →
      detectInstalledFor pid env.eth = true
  | .switchAccountAct _ env =>
    w.comp.account ≠ none ∧
    (w.comp.walletProvider ≠ some "walletconnect" →
      env.permissionsResult = .ok () →
      ∀ l, env.ethAccountsResult = .ok l → l ≠ [])
  | .accountsChangedAct accs => accs ≠ [] → w.comp.walletProvider ≠ none
  | _ => True

/-- A switch-account environment whose refreshed account list is empty
(the wallet revoked every account during the permissions prompt). -/
def cex6SwitchEnv : SwitchAccountEnv :=
  { wcProviderPresent := false
  , wcHasRequestMethod := false
  , wcSwitchResult := .ok ()
  , ethPresent := true
  , permissionsResult := .ok ()
  , ethAccountsResult := .ok [] }

/-- C6 counterexample: connect to MetaMask with two accounts, then
switch account while the wallet reports an empty refreshed list — the
reached state has `account` = "0xaaa" but `accounts` = [], violating the
claimed invariant. -/
theorem C6_counterexample :
    ¬ connInvariant (runActions freshWorld
      [ .connectAct "metamask" happyConnectEnv
      , .switchAccountAct "0xbbb" cex6SwitchEnv ]).comp := by
  decide

/-- C6 (amended): every Controller operation started in a state
satisfying the invariant ends in a state satisfying it, except in three
code-exhibited cases (excluded by `preservesCondition`): an extension
connect on an uninstalled provider, an account switch outside Connected
or with an empty refreshed list, and a non-empty accountsChanged event
with no active provider. -/
theorem C6_invariant_preserved (w : World) (a : CtrlAction)
    (hinv : connInvariant w.comp) (hc : preservesCondition w a) :
    connInvariant (applyAction w a).comp := by
  cases a with
  | connectAct pid env => exact connectWallet_inv pid w env hinv hc
  | disconnectAct env =>
    obtain ⟨h1, h2, h3⟩ := handleDisconnect_clears w env
    exact inv_of_cleared _ h1 h2 h3
  | switchAccountAct acc env =>
    exact switchAccount_inv acc w.comp env hinv hc.1 hc.2
  | switchChainAct cid env => exact hinv
  | accountsChangedAct accs =>
    cases accs with
    | nil =>
      simp only [applyAction, wcAccountsChangedHandler, disconnectWallet]
      exact inv_of_cleared _ (by simp) (by simp) (by simp)
    | cons a rest =>
      have hp : w.comp.walletProvider ≠ none := hc (by simp)
      simp only [applyAction, wcAccountsChangedHandler]
      exact inv_of_connected _ (by simp) (by simp) (by simp [hp])
  | wcDisconnectEventAct =>
    simp only [applyAction, disconnectWallet]
    exact inv_of_cleared _ (by simp) (by simp) (by simp)

/-- C6 witness: the preservation theorem evaluated on the fresh world
and a concrete successful MetaMask connect. -/
theorem C6_witness :
    connInvariant
      (applyAction freshWorld (CtrlAction.connectAct "metamask" happyConnectEnv)).comp :=
  C6_invariant_preserved freshWorld (CtrlAction.connectAct "metamask" happyConnectEnv)
    (by decide) (fun _ => rfl)
